import Mathlib

/-!
Verification of the RQ job-queue client (`rq_client.py`).

The client wraps a Redis Queue backend.  We shallow-embed it: the backend
(the redis connection and the bound queue) is modelled as a record of
fallible functions returning `Except String`, where an `Except.error e`
models a raised backend exception whose printed form is `e`.  Each client
method is a pure function on the client value; since methods may in
principle mutate the client, every method returns its result paired with
the (unchanged) client, making frame properties statable.
-/

namespace RQSpec

/-- Two-variant result type mirroring the `result` library used by the
source: `Ok` carries a success value, `Err` a failure value. -/
inductive Result (α ε : Type) where
  | Ok : α → Result α ε
  | Err : ε → Result α ε
deriving DecidableEq

/-- The five job states the client observes, as documented in the source
(`queued`, `started`, `finished`, `failed`, `canceled`). -/
inductive JobStatus where
  | queued
  | started
  | finished
  | failed
  | canceled
deriving DecidableEq

/-- String name of a status, mirroring `job.get_status()`. -/
def JobStatus.get_status : JobStatus → String
  | .queued => "queued"
  | .started => "started"
  | .finished => "finished"
  | .failed => "failed"
  | .canceled => "canceled"

variable {Val : Type}

/-- A backend job as the client observes it: its id, status, metadata
mapping and stored result (`none` models Python `None`). -/
structure Job (Val : Type) where
  id : String
  status : JobStatus
  meta : List (String × Val)
  result : Option Val

/-- Mirrors `job.is_finished`. -/
def Job.is_finished (j : Job Val) : Bool :=
  match j.status with
  | .finished => true
  | _ => false

/-- The request handed to `queue.enqueue`: function path, positional
arguments, timeout in seconds and keyword arguments. -/
structure EnqueueRequest (Val : Type) where
  function_path : String
  args : List Val
  job_timeout : Nat
  kwargs : List (String × Val)

/-- Behaviour of the redis connection as used by the client:
`fetchJob` models `Job.fetch(job_id, connection=...)` and `cancelJob`
models `job.cancel()`; an `Except.error` models a raised exception. -/
structure Conn (Val : Type) where
  fetchJob : String → Except String (Job Val)
  cancelJob : Job Val → Except String Unit

/-- Behaviour of the bound queue: `enqueue` models `queue.enqueue(...)`. -/
structure Queue (Val : Type) where
  enqueue : EnqueueRequest Val → Except String (Job Val)

/-- The client: holds the redis connection and the default queue, exactly
the two fields assigned in `__init__`. -/
structure RQClient (Val : Type) where
  _redis_connection : Conn Val
  _queue : Queue Val

/-- Address resolution performed by `__init__`: explicit argument first,
then the environment variable REDIS_URL, then the hard-coded default
(`os.getenv("REDIS_URL", "redis://localhost:6379/0")`). -/
def resolve_redis_url (redis_url : Option String) (env : String → Option String) : String :=
  match redis_url with
  | some url => url
  | none => (env "REDIS_URL").getD "redis://localhost:6379/0"

/-- Construction (`__init__`): resolve the address, open the connection
(`redis.from_url`) and bind the default queue (`Queue(connection=...)`).
Any exception in either step is re-raised as
`RuntimeError("Failed to connect to Redis: ...")`, modelled as
`Except.error`; a successful construction returns the client. -/
def RQClient.init (redis_url : Option String) (env : String → Option String)
    (from_url : String → Except String (Conn Val))
    (mkQueue : Conn Val → Except String (Queue Val)) :
    Except String (RQClient Val) :=
  match from_url (resolve_redis_url redis_url env) with
  | .error error => .error ("Failed to connect to Redis: " ++ error)
  | .ok conn =>
    match mkQueue conn with
    | .error error => .error ("Failed to connect to Redis: " ++ error)
    | .ok q => .ok ⟨conn, q⟩

/-- Builds the enqueue request; `job_timeout = none` models omitting the
keyword argument, whose Python default is 3600. -/
def mkEnqueueRequest (function_path : String) (args : List Val)
    (kwargs : List (String × Val)) (job_timeout : Option Nat) : EnqueueRequest Val :=
  { function_path := function_path
    args := args
    job_timeout := job_timeout.getD 3600
    kwargs := kwargs }

/-- `enqueue_job`: submit the request to the default queue; on success
return `Ok(job.id)`, on any exception `Err("Failed to enqueue job: ...")`. -/
def RQClient.enqueue_job (c : RQClient Val) (function_path : String) (args : List Val)
    (kwargs : List (String × Val)) (job_timeout : Option Nat) :
    Result String String × RQClient Val :=
  (match c._queue.enqueue (mkEnqueueRequest function_path args kwargs job_timeout) with
   | .ok job => .Ok job.id
   | .error error => .Err ("Failed to enqueue job: " ++ error), c)

/-- `get_job_status`: fetch the job and return its status string; on any
exception `Err("Failed to get job status: ...")`. -/
def RQClient.get_job_status (c : RQClient Val) (job_id : String) :
    Result String String × RQClient Val :=
  (match c._redis_connection.fetchJob job_id with
   | .ok job => .Ok job.status.get_status
   | .error error => .Err ("Failed to get job status: " ++ error), c)

/-- `get_job_meta`: fetch the job and return its metadata mapping; on any
exception `Err("Failed to get job metadata: ...")`. -/
def RQClient.get_job_meta (c : RQClient Val) (job_id : String) :
    Result (List (String × Val)) String × RQClient Val :=
  (match c._redis_connection.fetchJob job_id with
   | .ok job => .Ok job.meta
   | .error error => .Err ("Failed to get job metadata: " ++ error), c)

/-- `cancel_job`: fetch the job and request its cancellation; an exception
in either step yields `Err("Failed to cancel job: ...")`. -/
def RQClient.cancel_job (c : RQClient Val) (job_id : String) :
    Result Unit String × RQClient Val :=
  (match c._redis_connection.fetchJob job_id with
   | .error error => .Err ("Failed to cancel job: " ++ error)
   | .ok job =>
     match c._redis_connection.cancelJob job with
     | .ok _ => .Ok ()
     | .error error => .Err ("Failed to cancel job: " ++ error), c)

/-- `get_job_result`: fetch the job; if finished, `Ok(job.result)`;
if not finished, `Err("Job is not finished yet (status: ...)")`; on any
exception `Err("Failed to get job result: ...")`. -/
def RQClient.get_job_result (c : RQClient Val) (job_id : String) :
    Result (Option Val) String × RQClient Val :=
  (match c._redis_connection.fetchJob job_id with
   | .ok job =>
     if job.is_finished then .Ok job.result
     else .Err ("Job is not finished yet (status: " ++ job.status.get_status ++ ")")
   | .error error => .Err ("Failed to get job result: " ++ error), c)

/-- A message carries tag `tag` when it starts with it. -/
def taggedWith (tag s : String) : Prop := ∃ t, s = tag ++ t

/-! Concrete fixtures used by the witness theorems (`Val := Nat`). -/

/-- A backend where every call raises. -/
def connBoom : Conn Nat :=
  ⟨fun _ => .error "boom", fun _ => .error "boom"⟩

/-- A queue whose enqueue raises. -/
def queueBoom : Queue Nat :=
  ⟨fun _ => .error "boom"⟩

/-- A client whose backend always raises. -/
def clientBoom : RQClient Nat := ⟨connBoom, queueBoom⟩

/-- A queued job. -/
def jobQ : Job Nat := ⟨"j1", .queued, [], none⟩

/-- A finished job whose stored result is absent. -/
def jobF : Job Nat := ⟨"j2", .finished, [], none⟩

/-- A job as returned by a successful enqueue. -/
def jobAbc : Job Nat := ⟨"abc123", .queued, [], none⟩

/-- A queue that accepts every request and returns `jobAbc`. -/
def queueOkId : Queue Nat := ⟨fun _ => .ok jobAbc⟩

/-- A client whose backend holds the queued job `jobQ`. -/
def clientQ : RQClient Nat := ⟨⟨fun _ => .ok jobQ, fun _ => .ok ()⟩, queueOkId⟩

/-- A client whose backend holds the finished job `jobF`. -/
def clientF : RQClient Nat := ⟨⟨fun _ => .ok jobF, fun _ => .ok ()⟩, queueOkId⟩

/-! Helper lemmas. -/

/-- String append acts as list append on the underlying data. -/
theorem strDataAppend (a b : String) : (a ++ b).data = a.data ++ b.data := rfl

/-- No message is tagged both as a result-transport failure and as a
not-finished precondition report: the two tags differ at their first
character. -/
theorem resultTags_exclusive (m : String)
    (h1 : taggedWith "Failed to get job result: " m)
    (h2 : taggedWith "Job is not finished yet" m) : False := by
  obtain ⟨t1, h1⟩ := h1
  obtain ⟨t2, h2⟩ := h2
  have hd := congrArg String.data (h1.symm.trans h2)
  rw [strDataAppend, strDataAppend] at hd
  have hF : ("Failed to get job result: ").data
      = 'F' :: ("ailed to get job result: ").data := rfl
  have hJ : ("Job is not finished yet").data
      = 'J' :: ("ob is not finished yet").data := rfl
  rw [hF, hJ] at hd
  simp only [List.cons_append] at hd
  injection hd with hh _
  exact absurd hh (by decide)

/-- A job whose status is not `finished` has `is_finished = false`. -/
theorem is_finished_false_of_ne {Val : Type} (j : Job Val)
    (hs : j.status ≠ .finished) : j.is_finished = false := by
  unfold Job.is_finished
  cases h : j.status <;> simp_all

/-! Claim theorems. -/

/-- C1: every job-facing operation turns every backend failure (raised
while enqueueing, fetching, or cancelling) into `Err` with a
human-readable message; no exception reaches the caller (the operations
are total functions into `Result`). -/
theorem ops_err_on_backend_failure {Val : Type} (c : RQClient Val)
    (jid fp e : String) (args : List Val) (kwargs : List (String × Val))
    (t : Option Nat) :
    (c._queue.enqueue (mkEnqueueRequest fp args kwargs t) = .error e →
      (c.enqueue_job fp args kwargs t).1 = .Err ("Failed to enqueue job: " ++ e)) ∧
    (c._redis_connection.fetchJob jid = .error e →
      (c.get_job_status jid).1 = .Err ("Failed to get job status: " ++ e) ∧
      (c.get_job_meta jid).1 = .Err ("Failed to get job metadata: " ++ e) ∧
      (c.cancel_job jid).1 = .Err ("Failed to cancel job: " ++ e) ∧
      (c.get_job_result jid).1 = .Err ("Failed to get job result: " ++ e)) ∧
    (∀ j : Job Val, c._redis_connection.fetchJob jid = .ok j →
      c._redis_connection.cancelJob j = .error e →
      (c.cancel_job jid).1 = .Err ("Failed to cancel job: " ++ e)) := by
  refine ⟨fun h => ?_, fun h => ?_, fun j hj hc => ?_⟩
  · simp [RQClient.enqueue_job, h]
  · exact ⟨by simp [RQClient.get_job_status, h], by simp [RQClient.get_job_meta, h],
      by simp [RQClient.cancel_job, h], by simp [RQClient.get_job_result, h]⟩
  · simp [RQClient.cancel_job, hj, hc]

/-- C1 witness: a backend that raises "boom" on every call makes every
operation return the wrapped `Err`. -/
theorem ops_err_on_backend_failure_witness :
    (clientBoom.enqueue_job "mod.fn" [] [] none).1 =
      .Err ("Failed to enqueue job: " ++ "boom") ∧
    (clientBoom.get_job_status "j").1 = .Err ("Failed to get job status: " ++ "boom") ∧
    (clientBoom.get_job_meta "j").1 = .Err ("Failed to get job metadata: " ++ "boom") ∧
    (clientBoom.cancel_job "j").1 = .Err ("Failed to cancel job: " ++ "boom") ∧
    (clientBoom.get_job_result "j").1 = .Err ("Failed to get job result: " ++ "boom") := by
  have h := ops_err_on_backend_failure clientBoom "j" "mod.fn" "boom" [] [] none
  exact ⟨h.1 rfl, h.2.1 rfl⟩

/-- C2: when the fetch succeeds but the job is not `finished`,
`get_job_result` returns `Err`, and the message carries the current
status string. -/
theorem get_job_result_err_when_not_finished {Val : Type} (c : RQClient Val)
    (jid : String) (j : Job Val)
    (hf : c._redis_connection.fetchJob jid = .ok j)
    (hs : j.status ≠ .finished) :
    (c.get_job_result jid).1 =
      .Err ("Job is not finished yet (status: " ++ j.status.get_status ++ ")") := by
  simp [RQClient.get_job_result, hf, is_finished_false_of_ne j hs]

/-- C2 witness: on a queued job, `get_job_result` reports
`Job is not finished yet (status: queued)`. -/
theorem get_job_result_err_when_not_finished_witness :
    (clientQ.get_job_result "j").1 =
      .Err ("Job is not finished yet (status: " ++ "queued" ++ ")") :=
  get_job_result_err_when_not_finished clientQ "j" jobQ rfl (by decide)

/-- C3: the effective redis address is the explicit argument when given,
else the value of REDIS_URL when set, else the hard-coded local
default. -/
theorem resolve_redis_url_order :
    (∀ (u : String) (env : String → Option String),
      resolve_redis_url (some u) env = u) ∧
    (∀ (env : String → Option String) (v : String), env "REDIS_URL" = some v →
      resolve_redis_url none env = v) ∧
    (∀ env : String → Option String, env "REDIS_URL" = none →
      resolve_redis_url none env = "redis://localhost:6379/0") := by
  refine ⟨fun u env => rfl, fun env v h => ?_, fun env h => ?_⟩ <;>
    simp [resolve_redis_url, h]

/-- C3 witness: the three tiers of the fallback chain at concrete
inputs. -/
theorem resolve_redis_url_order_witness :
    resolve_redis_url (some "redis://a:1/0") (fun _ => some "redis://b:2/0")
      = "redis://a:1/0" ∧
    resolve_redis_url none (fun _ => some "redis://b:2/0") = "redis://b:2/0" ∧
    resolve_redis_url none (fun _ => none) = "redis://localhost:6379/0" := by
  have h := resolve_redis_url_order
  exact ⟨h.1 _ _, h.2.1 _ "redis://b:2/0" rfl, h.2.2 _ rfl⟩

/-- C4: if the connection cannot be established, construction raises
(returns `Except.error`, modelling the raised RuntimeError) and never
yields a client. -/
theorem init_raises_on_connect_failure {Val : Type} (redis_url : Option String)
    (env : String → Option String)
    (from_url : String → Except String (Conn Val))
    (mkQueue : Conn Val → Except String (Queue Val)) (e : String)
    (h : from_url (resolve_redis_url redis_url env) = .error e) :
    RQClient.init redis_url env from_url mkQueue =
      .error ("Failed to connect to Redis: " ++ e) ∧
    ∀ c : RQClient Val, RQClient.init redis_url env from_url mkQueue ≠ .ok c := by
  have hm : RQClient.init redis_url env from_url mkQueue =
      .error ("Failed to connect to Redis: " ++ e) := by
    simp [RQClient.init, h]
  exact ⟨hm, fun c hc => by rw [hm] at hc; exact Except.noConfusion hc⟩

/-- C4 witness: a connection attempt raising "refused" makes
construction raise the wrapped error. -/
theorem init_raises_on_connect_failure_witness :
    @RQClient.init Nat (some "redis://a:1/0") (fun _ => none)
      (fun _ => .error "refused") (fun _ => .ok queueBoom) =
      .error ("Failed to connect to Redis: " ++ "refused") :=
  (init_raises_on_connect_failure (some "redis://a:1/0") (fun _ => none)
    (fun _ => .error "refused") (fun _ => .ok queueBoom) "refused" rfl).1

/-- C5: every successful `get_job_status` returns one of exactly the five
status strings. -/
theorem get_job_status_vocab {Val : Type} (c : RQClient Val) (jid s : String)
    (h : (c.get_job_status jid).1 = .Ok s) :
    s = "queued" ∨ s = "started" ∨ s = "finished" ∨ s = "failed" ∨ s = "canceled" := by
  unfold RQClient.get_job_status at h
  cases hf : c._redis_connection.fetchJob jid with
  | error e => rw [hf] at h; exact Result.noConfusion h
  | ok j =>
    rw [hf] at h
    injection h with h
    subst h
    cases j.status <;> simp [JobStatus.get_status]

/-- C5 witness: the status of the queued job is in the vocabulary. -/
theorem get_job_status_vocab_witness :
    "queued" = "queued" ∨ "queued" = "started" ∨ "queued" = "finished" ∨
    "queued" = "failed" ∨ "queued" = "canceled" :=
  get_job_status_vocab clientQ "j" "queued" rfl

/-- C6: omitting the timeout submits the job with a timeout of exactly
3600 seconds: the request built without a timeout carries 3600, and the
call without a timeout equals the call with an explicit 3600. -/
theorem enqueue_default_timeout {Val : Type} (fp : String) (args : List Val)
    (kwargs : List (String × Val)) :
    (mkEnqueueRequest fp args kwargs none).job_timeout = 3600 ∧
    ∀ c : RQClient Val,
      c.enqueue_job fp args kwargs none = c.enqueue_job fp args kwargs (some 3600) :=
  ⟨rfl, fun _ => rfl⟩

/-- C7: provided the backend only issues jobs with non-empty ids (RQ
generates UUID ids), `enqueue_job` returns either `Err` or `Ok` of a
non-empty job id. -/
theorem enqueue_job_id_nonempty {Val : Type} (c : RQClient Val) (fp : String)
    (args : List Val) (kwargs : List (String × Val)) (t : Option Nat)
    (hB : ∀ req (j : Job Val), c._queue.enqueue req = .ok j → j.id ≠ "") :
    (∃ e, (c.enqueue_job fp args kwargs t).1 = .Err e) ∨
    (∃ jobid, (c.enqueue_job fp args kwargs t).1 = .Ok jobid ∧ jobid ≠ "") := by
  unfold RQClient.enqueue_job
  cases hq : c._queue.enqueue (mkEnqueueRequest fp args kwargs t) with
  | error e => exact Or.inl ⟨_, rfl⟩
  | ok j => exact Or.inr ⟨j.id, rfl, hB _ _ hq⟩

/-- C7 witness: a queue issuing id "abc123" yields `Ok` of a non-empty
id. -/
theorem enqueue_job_id_nonempty_witness :
    (∃ e, (clientQ.enqueue_job "mod.fn" [] [] none).1 = .Err e) ∨
    (∃ jobid, (clientQ.enqueue_job "mod.fn" [] [] none).1 = .Ok jobid ∧ jobid ≠ "") :=
  enqueue_job_id_nonempty clientQ "mod.fn" [] [] none
    (by
      intro req j h
      have h2 : (Except.ok jobAbc : Except String (Job Nat)) = .ok j := h
      injection h2 with h2
      rw [← h2]
      decide)

/-- C8: no operation reassigns the client state: each returns the held
connection and queue unchanged. -/
theorem ops_preserve_client_state {Val : Type} (c : RQClient Val)
    (jid fp : String) (args : List Val) (kwargs : List (String × Val))
    (t : Option Nat) :
    (c.enqueue_job fp args kwargs t).2 = c ∧
    (c.get_job_status jid).2 = c ∧
    (c.get_job_meta jid).2 = c ∧
    (c.cancel_job jid).2 = c ∧
    (c.get_job_result jid).2 = c :=
  ⟨rfl, rfl, rfl, rfl, rfl⟩

/-- C9: a finished job whose stored result is absent (`none`) makes
`get_job_result` return `Ok none`; absence and a genuine `None` result
are indistinguishable through this interface. -/
theorem get_job_result_ok_none {Val : Type} (c : RQClient Val) (jid : String)
    (j : Job Val) (hf : c._redis_connection.fetchJob jid = .ok j)
    (hs : j.status = .finished) (hr : j.result = none) :
    (c.get_job_result jid).1 = .Ok none := by
  simp [RQClient.get_job_result, hf, Job.is_finished, hs, hr]

/-- C9 witness: the finished job with absent result yields `Ok none`. -/
theorem get_job_result_ok_none_witness :
    (clientF.get_job_result "j").1 = .Ok none :=
  get_job_result_ok_none clientF "j" jobF rfl rfl rfl

/-- C10: every transport-failure `Err` message carries its per-operation
fixed tag, the not-finished `Err` of `get_job_result` carries the tag
"Job is not finished yet", and the two tags of `get_job_result` exclude
each other, so the cases are machine-distinguishable by message tag. -/
theorem err_message_prefixes {Val : Type} (c : RQClient Val) (jid fp e : String)
    (args : List Val) (kwargs : List (String × Val)) (t : Option Nat)
    (j : Job Val) :
    (c._queue.enqueue (mkEnqueueRequest fp args kwargs t) = .error e →
      ∃ m, (c.enqueue_job fp args kwargs t).1 = .Err m ∧
        taggedWith "Failed to enqueue job: " m) ∧
    (c._redis_connection.fetchJob jid = .error e →
      (∃ m, (c.get_job_status jid).1 = .Err m ∧
        taggedWith "Failed to get job status: " m) ∧
      (∃ m, (c.get_job_meta jid).1 = .Err m ∧
        taggedWith "Failed to get job metadata: " m) ∧
      (∃ m, (c.cancel_job jid).1 = .Err m ∧
        taggedWith "Failed to cancel job: " m) ∧
      (∃ m, (c.get_job_result jid).1 = .Err m ∧
        taggedWith "Failed to get job result: " m ∧
        ¬ taggedWith "Job is not finished yet" m)) ∧
    (c._redis_connection.fetchJob jid = .ok j → j.status ≠ .finished →
      ∃ m, (c.get_job_result jid).1 = .Err m ∧
        taggedWith "Job is not finished yet" m ∧
        ¬ taggedWith "Failed to get job result: " m) := by
  refine ⟨fun h => ?_, fun h => ?_, fun hj hs => ?_⟩
  · exact ⟨_, by simp [RQClient.enqueue_job, h], e, rfl⟩
  · refine ⟨⟨_, by simp [RQClient.get_job_status, h], e, rfl⟩,
      ⟨_, by simp [RQClient.get_job_meta, h], e, rfl⟩,
      ⟨_, by simp [RQClient.cancel_job, h], e, rfl⟩,
      ⟨_, by simp [RQClient.get_job_result, h], ⟨e, rfl⟩,
        fun h2 => resultTags_exclusive _ ⟨e, rfl⟩ h2⟩⟩
  · refine ⟨"Job is not finished yet (status: " ++ j.status.get_status ++ ")",
      by simp [RQClient.get_job_result, hj, is_finished_false_of_ne j hs],
      ⟨" (status: " ++ j.status.get_status ++ ")", ?_⟩, fun h2 => ?_⟩
    · rw [show ("Job is not finished yet (status: " : String)
          = "Job is not finished yet" ++ " (status: " from rfl]
      simp only [String.append_assoc]
    · exact resultTags_exclusive _ h2
        ⟨" (status: " ++ j.status.get_status ++ ")", by
          rw [show ("Job is not finished yet (status: " : String)
              = "Job is not finished yet" ++ " (status: " from rfl]
          simp only [String.append_assoc]⟩

/-- C10 witness: a raising backend tags the status failure, and a queued
job tags the not-finished report, excluding the transport tag. -/
theorem err_message_prefixes_witness :
    (∃ m, (clientBoom.get_job_status "j").1 = .Err m ∧
      taggedWith "Failed to get job status: " m) ∧
    (∃ m, (clientQ.get_job_result "j").1 = .Err m ∧
      taggedWith "Job is not finished yet" m ∧
      ¬ taggedWith "Failed to get job result: " m) := by
  have h1 := err_message_prefixes clientBoom "j" "mod.fn" "boom"
    ([] : List Nat) [] none jobQ
  have h2 := err_message_prefixes clientQ "j" "mod.fn" "boom"
    ([] : List Nat) [] none jobQ
  exact ⟨(h1.2.1 rfl).1, h2.2.2 rfl (by decide)⟩

end RQSpec
